import Mathlib

/-
Verification development for the audio-reactive visualization engine
(class FlowFieldRenderer, file src/components/visualizers/FlowFieldRenderer.ts).

Modelling conventions, used throughout:
* Host numbers are IEEE doubles.  They are embedded as `JsNum := Option ℚ`:
  `some q` is the finite value `q` and `none` is NaN.  Comparisons with NaN
  are false, and NaN propagates through arithmetic, exactly as in JS.
  Infinities are not representable; at every division site of this file a
  zero divisor comes with a zero dividend (the JS result is then 0/0 = NaN),
  so `none` covers all non-finite values that can actually arise.  Where a
  theorem needs the caller-guaranteed shape of an input (the only caller,
  FlowFieldBackground.tsx, invokes render(dataArray, dataArray.length)),
  that shape is an explicit hypothesis or is built into the run function.
* Transcendental host functions (Math.sin, Math.cos, Math.sqrt) and the
  float constant Math.PI are abstracted as explicit function/constant
  parameters of type ℚ → ℚ resp. ℚ: the theorems hold for every
  implementation of them.
* Math.random() is modelled by explicit streams of rational draws, one
  fresh draw per call site, indexed deterministically.
* Canvas drawing calls (gradients, strokes, putImageData, ...) only write
  pixels; they do not touch the engine state and are not modelled.  A
  renderer whose only actions are drawing calls is the identity on the
  engine state.
-/

namespace Songbird

/-- A JS number: a finite rational (`some q`) or NaN (`none`). -/
abbrev JsNum := Option ℚ

/-- JS addition; NaN propagates. -/
def jsAdd : JsNum → JsNum → JsNum
  | some a, some b => some (a + b)
  | _, _ => none

/-- JS subtraction; NaN propagates. -/
def jsSub : JsNum → JsNum → JsNum
  | some a, some b => some (a - b)
  | _, _ => none

/-- JS multiplication; NaN propagates. -/
def jsMul : JsNum → JsNum → JsNum
  | some a, some b => some (a * b)
  | _, _ => none

/-- JS unary minus; NaN propagates. -/
def jsNeg : JsNum → JsNum := Option.map Neg.neg

/-- JS division.  NaN propagates, and a zero divisor yields `none`: at every
division site of the modelled file a zero divisor implies a zero dividend,
so this is exactly the JS result 0/0 = NaN. -/
def jsDiv : JsNum → JsNum → JsNum
  | some a, some b => if b = 0 then none else some (a / b)
  | _, _ => none

/-- JS strict less-than; any comparison involving NaN is false. -/
def jsLt : JsNum → JsNum → Bool
  | some a, some b => decide (a < b)
  | _, _ => false

/-- JS strict greater-than; any comparison involving NaN is false. -/
def jsGt (a b : JsNum) : Bool := jsLt b a

/-- JS greater-or-equal; any comparison involving NaN is false. -/
def jsGe : JsNum → JsNum → Bool
  | some a, some b => decide (b ≤ a)
  | _, _ => false

/-- JS less-or-equal; any comparison involving NaN is false. -/
def jsLe : JsNum → JsNum → Bool
  | some a, some b => decide (a ≤ b)
  | _, _ => false

/-- Math.min on two arguments; NaN propagates. -/
def jsMin : JsNum → JsNum → JsNum
  | some a, some b => some (min a b)
  | _, _ => none

/-- Math.max on two arguments; NaN propagates. -/
def jsMax : JsNum → JsNum → JsNum
  | some a, some b => some (max a b)
  | _, _ => none

/-- Math.floor as a number-to-number map; Math.floor(NaN) = NaN. -/
def jsFloorNum : JsNum → JsNum := Option.map (fun q => ((⌊q⌋ : ℤ) : ℚ))

/-- Rounding toward zero, the rounding used by the JS `%` operator. -/
def jsTrunc (q : ℚ) : ℤ := if 0 ≤ q then ⌊q⌋ else ⌈q⌉

/-- The JS remainder operator `%` (sign of the dividend); NaN propagates and
a zero modulus gives NaN. -/
def jsMod : JsNum → JsNum → JsNum
  | some a, some b => if b = 0 then none else some (a - b * (jsTrunc (a / b) : ℚ))
  | _, _ => none

/-- Lift of a host math function (Math.sin, Math.cos, Math.sqrt as abstract
rational implementations); the host functions map NaN to NaN. -/
def jsFn (f : ℚ → ℚ) : JsNum → JsNum := Option.map f

/-- `dataArray[i] ?? 0` for an integer index: out-of-range and negative
indices read `undefined`, which `?? 0` turns into 0. -/
def jsIndexD (l : List ℕ) (i : ℤ) : ℚ :=
  if 0 ≤ i then ((l.getD i.toNat 0 : ℕ) : ℚ) else 0

/-!  Audio feature extraction (method getFrequencyBandIntensity and the
overall-intensity computation at the top of render). -/

/-- Source: getFrequencyBandIntensity(dataArray, bufferLength, startRatio,
endRatio).  `startIndex = Math.floor(bufferLength * startRatio)`,
`endIndex = Math.floor(bufferLength * endRatio)`, sum of `dataArray[i] ?? 0`
for `startIndex ≤ i < endIndex`, result
`Math.min(1, sum / (endIndex - startIndex) / 128)`.
When the band is empty the division is 0/0, i.e. NaN (`none`). -/
def getFrequencyBandIntensity (dataArray : List ℕ) (bufferLength : ℕ)
    (ratioLow ratioHigh : ℚ) : JsNum :=
  let startIndex : ℤ := ⌊(bufferLength : ℚ) * ratioLow⌋
  let endIndex : ℤ := ⌊(bufferLength : ℚ) * ratioHigh⌋
  let sum : ℚ :=
    ((List.range (endIndex - startIndex).toNat).map
      (fun k : ℕ => jsIndexD dataArray (startIndex + (k : ℤ)))).sum
  jsMin (some 1)
    (jsDiv (jsDiv (some sum) (some ((endIndex : ℚ) - (startIndex : ℚ))))
      (some 128))

/-- Source, render: `dataArray.reduce((sum, val) => sum + val, 0) /
bufferLength`. -/
def averageFrequency (dataArray : List ℕ) (bufferLength : ℕ) : JsNum :=
  jsDiv (some ((dataArray.map (fun v : ℕ => (v : ℚ))).sum))
    (some (bufferLength : ℚ))

/-- Source, render: `Math.min(1, avgFrequency / 128)`. -/
def audioIntensityOf (dataArray : List ℕ) (bufferLength : ℕ) : JsNum :=
  jsMin (some 1) (jsDiv (averageFrequency dataArray bufferLength) (some 128))

/-- Bass band, render: `getFrequencyBandIntensity(dataArray, bufferLength, 0, 0.15)`. -/
def bassIntensityOf (dataArray : List ℕ) (bufferLength : ℕ) : JsNum :=
  getFrequencyBandIntensity dataArray bufferLength 0 (3/20)

/-- Mid band, render: `getFrequencyBandIntensity(dataArray, bufferLength, 0.15, 0.5)`. -/
def midIntensityOf (dataArray : List ℕ) (bufferLength : ℕ) : JsNum :=
  getFrequencyBandIntensity dataArray bufferLength (3/20) (1/2)

/-- Treble band, render: `getFrequencyBandIntensity(dataArray, bufferLength, 0.5, 1.0)`. -/
def trebleIntensityOf (dataArray : List ℕ) (bufferLength : ℕ) : JsNum :=
  getFrequencyBandIntensity dataArray bufferLength (1/2) 1

/-!  Pattern scheduler (type Pattern, the pattern-system fields of
FlowFieldRenderer, and method updatePatternTransition). -/

/-- The ten pattern tags of `type Pattern`. -/
inductive Pattern where
  | fractal | rays | tunnel | bubbles | voronoi
  | waves | swarm | mandala | dna | plasma
deriving DecidableEq, Repr

/-- Field patternSequence of FlowFieldRenderer. -/
def patternSequence : List Pattern :=
  [.rays, .fractal, .tunnel, .bubbles, .voronoi,
   .waves, .swarm, .mandala, .dna, .plasma]

/-- `this.patternSequence[i] ?? 'rays'`. -/
def patternAt (i : ℕ) : Pattern := (patternSequence.get? i).getD .rays

/-- The pattern-system fields of FlowFieldRenderer, gathered in one record
(the source keeps them as flat private fields of the class). -/
structure SchedulerState where
  currentPattern : Pattern
  nextPattern : Pattern
  patternTimer : JsNum
  patternDuration : JsNum
  transitionProgress : JsNum
  transitionSpeed : JsNum
  isTransitioning : Bool
  patternIndex : ℕ
deriving DecidableEq, Repr

/-- Scheduler fields as initialized by the class field initializers:
currentPattern 'rays', nextPattern 'fractal', patternTimer 0,
patternDuration 600, transitionProgress 0, transitionSpeed 0.02,
isTransitioning false, patternIndex 0. -/
def initialScheduler : SchedulerState :=
  { currentPattern := .rays
    nextPattern := .fractal
    patternTimer := some 0
    patternDuration := some 600
    transitionProgress := some 0
    transitionSpeed := some (1/50)
    isTransitioning := false
    patternIndex := 0 }

/-- Source, updatePatternTransition:
`Math.max(300, this.patternDuration - audioIntensity * 200)`. -/
def dynamicDuration (patternDuration audioIntensity : JsNum) : JsNum :=
  jsMax (some 300) (jsSub patternDuration (jsMul audioIntensity (some 200)))

/-- Source, updatePatternTransition:
`this.transitionSpeed * (1 + audioIntensity * 0.5)` added onto
`this.transitionProgress`. -/
def nextProgress (s : SchedulerState) (audioIntensity : JsNum) : JsNum :=
  jsAdd s.transitionProgress
    (jsMul s.transitionSpeed (jsAdd (some 1) (jsMul audioIntensity (some (1/2)))))

/-- Method updatePatternTransition(audioIntensity).  The source computes
dynamicDuration, does `this.patternTimer++` unconditionally, and then
branches; here the incremented timer `jsAdd s.patternTimer (some 1)` is
written out in each branch (and the commit branch, which ends with
`this.patternTimer = 0`, keeps only that final 0).  If transitioning,
advance transitionProgress by `transitionSpeed * (1 + audioIntensity *
0.5)` and on `progress >= 1` commit (progress 0, not transitioning,
currentPattern := nextPattern, patternTimer 0); otherwise, if
`patternTimer > dynamicDuration`, begin a transition (advance patternIndex
cyclically, nextPattern from the sequence with the `?? 'rays'` fallback,
transitioning, progress 0). -/
def updatePatternTransition (s : SchedulerState) (audioIntensity : JsNum) :
    SchedulerState :=
  if s.isTransitioning then
    if jsGe (nextProgress s audioIntensity) (some 1) then
      { s with transitionProgress := some 0
               isTransitioning := false
               currentPattern := s.nextPattern
               patternTimer := some 0 }
    else
      { s with patternTimer := jsAdd s.patternTimer (some 1)
               transitionProgress := nextProgress s audioIntensity }
  else if jsGt (jsAdd s.patternTimer (some 1))
      (dynamicDuration s.patternDuration audioIntensity) then
    { s with patternTimer := jsAdd s.patternTimer (some 1)
             isTransitioning := true
             transitionProgress := some 0
             patternIndex := (s.patternIndex + 1) % patternSequence.length
             nextPattern := patternAt ((s.patternIndex + 1) % patternSequence.length) }
  else
    { s with patternTimer := jsAdd s.patternTimer (some 1) }

/-- A run of the scheduler over a list of per-frame audio intensities,
returning the final state together with the number of completed
(committed) transitions along the run. -/
def schedulerRun : SchedulerState → List JsNum → SchedulerState × ℕ
  | s, [] => (s, 0)
  | s, i :: is =>
    let s2 := updatePatternTransition s i
    let r := schedulerRun s2 is
    (r.1, r.2 + (if s.isTransitioning && !s2.isTransitioning then 1 else 0))

/-!  Entity pools (interfaces Particle and Bubble, the voronoiSeeds field,
and the initialize/create methods). -/

/-- One entry of a particle's trail: `{ x, y, alpha }`. -/
structure TrailPoint where
  x : JsNum
  y : JsNum
  alpha : JsNum
deriving DecidableEq, Repr

/-- Interface Particle. -/
structure Particle where
  x : JsNum
  y : JsNum
  vx : JsNum
  vy : JsNum
  size : JsNum
  hue : JsNum
  life : JsNum
  maxLife : JsNum
  angle : JsNum
  angularVelocity : JsNum
  trail : List TrailPoint
deriving DecidableEq, Repr

/-- Interface Bubble. -/
structure Bubble where
  x : JsNum
  y : JsNum
  vx : JsNum
  vy : JsNum
  radius : JsNum
  hue : JsNum
  age : JsNum
  maxAge : JsNum
  popping : Bool
  popProgress : JsNum
deriving DecidableEq, Repr

/-- One entry of the voronoiSeeds field: `{ x, y, hue }`. -/
structure VoronoiSeed where
  x : JsNum
  y : JsNum
  hue : JsNum
deriving DecidableEq, Repr

/-- Method createParticle.  `rand k` is the k-th Math.random() draw of this
call, in source order: angle, radius, maxLife, vx, vy, size, hue, the
rotation angle field, angularVelocity. -/
def createParticle (w h cx cy : JsNum) (piC : ℚ) (sinO cosO : ℚ → ℚ)
    (rand : ℕ → ℚ) : Particle :=
  let angle : ℚ := rand 0 * piC * 2
  let radius : JsNum := jsMul (jsMul (some (rand 1)) (jsMin w h)) (some (1/2))
  let maxLife : ℚ := 150 + rand 2 * 250
  { x := jsAdd cx (jsMul (some (cosO angle)) radius)
    y := jsAdd cy (jsMul (some (sinO angle)) radius)
    vx := some ((rand 3 - 1/2) * 2)
    vy := some ((rand 4 - 1/2) * 2)
    size := some (4/5 + rand 5 * (5/2))
    hue := some (rand 6 * 60)
    life := some maxLife
    maxLife := some maxLife
    angle := some (rand 7 * piC * 2)
    angularVelocity := some ((rand 8 - 1/2) * (1/10))
    trail := [] }

/-- Method initializeParticles:
`count = Math.min(1200, Math.floor((width * height) / 800))`; a NaN count
runs the loop zero times. -/
def particleCount (w h : JsNum) : ℕ :=
  match jsMul w h with
  | none => 0
  | some a => (min 1200 ⌊a / 800⌋).toNat

/-- Method initializeParticles.  `rand k` is the draw family of the k-th
created particle. -/
def initializeParticles (w h cx cy : JsNum) (piC : ℚ) (sinO cosO : ℚ → ℚ)
    (rand : ℕ → ℕ → ℚ) : List Particle :=
  (List.range (particleCount w h)).map
    (fun k => createParticle w h cx cy piC sinO cosO (rand k))

/-- Method createBubble.  `rand k` is the k-th Math.random() draw, in source
order: x, y, vx, vy, radius, hue, maxAge. -/
def createBubble (w h : JsNum) (rand : ℕ → ℚ) : Bubble :=
  { x := jsMul (some (rand 0)) w
    y := jsAdd h (some (rand 1 * 100))
    vx := some ((rand 2 - 1/2) * (1/2))
    vy := some (-(1/2 + rand 3 * (3/2)))
    radius := some (10 + rand 4 * 40)
    hue := some (rand 5 * 360)
    age := some 0
    maxAge := some (300 + rand 6 * 300)
    popping := false
    popProgress := some 0 }

/-- Method initializeBubbles: `count = 30 + Math.floor(Math.random() * 20)`. -/
def initializeBubbles (w h : JsNum) (randCount : ℚ) (rand : ℕ → ℕ → ℚ) :
    List Bubble :=
  (List.range (30 + ⌊randCount * 20⌋ : ℤ).toNat).map
    (fun k => createBubble w h (rand k))

/-- Method initializeVoronoiSeeds:
`count = 15 + Math.floor(Math.random() * 10)`; each seed draws x, y, hue. -/
def initializeVoronoiSeeds (w h : JsNum) (randCount : ℚ) (rand : ℕ → ℕ → ℚ) :
    List VoronoiSeed :=
  (List.range (15 + ⌊randCount * 10⌋ : ℤ).toNat).map
    (fun k =>
      { x := jsMul (some (rand k 0)) w
        y := jsMul (some (rand k 1)) h
        hue := some (rand k 2 * 360) })

/-!  Bubble pattern (method renderBubbles): per-bubble update, the
backward splice loop, and the bass-transient spawn. -/

/-- The per-bubble step of one renderBubbles pass (loop body, state effects
only; the gradient/arc drawing is pixel output).  `none` means the bubble
was spliced out of the pool.  `rBrown` is the Brownian Math.random() draw,
`rPop` the treble-pop draw (the source draws it only when
`trebleIntensity > 0.7`; as a free parameter it is simply unused
otherwise). -/
def updateBubble (b : Bubble) (w time trebleIntensity : JsNum)
    (sinO : ℚ → ℚ) (rBrown rPop : ℚ) : Option Bubble :=
  if b.popping then
    let p := jsAdd b.popProgress (jsAdd (some (1/10)) (jsMul trebleIntensity (some (1/10))))
    if jsGe p (some 1) then none
    else some { b with popProgress := p }
  else
    let age := jsAdd b.age (some 1)
    let vy1 := jsSub b.vy (some (1/100))
    let vx1 := jsAdd b.vx (some ((rBrown - 1/2) * (1/10)))
    let vx2 := jsMul vx1 (some (99/100))
    let vy2 := jsMul vy1 (some (99/100))
    let x2 := jsAdd b.x (jsAdd vx2
      (jsMul (jsFn sinO (jsAdd (jsMul time (some (1/50))) (jsMul b.y (some (1/100)))))
        (some (1/2))))
    let y2 := jsAdd b.y vy2
    let b2 := { b with age := age, vx := vx2, vy := vy2, x := x2, y := y2 }
    if jsGt age b.maxAge || jsLt y2 (jsMul (jsNeg b.radius) (some 2)) ||
        jsLt x2 (jsNeg b.radius) || jsGt x2 (jsAdd w b.radius) ||
        (jsGt trebleIntensity (some (7/10)) && decide ((19/20 : ℚ) < rPop)) then
      some { b2 with popping := true }
    else
      some b2

/-- The renderBubbles update/splice loop
`for (let i = this.bubbles.length - 1; i >= 0; i--)`: the next argument is
the number of indices still to visit (the loop visits index i when the
argument is i+1), `List.eraseIdx` is `splice(i, 1)`, `List.set` is the
in-place mutation of the bubble object, and a missing element
(`if (!bubble) continue`) is skipped.  `rBrown i` and `rPop i` are the
draws consumed while visiting index i. -/
def bubblesPassFrom (w time treble : JsNum) (sinO : ℚ → ℚ)
    (rBrown rPop : ℕ → ℚ) : List Bubble → ℕ → List Bubble
  | l, 0 => l
  | l, i + 1 =>
    match l.get? i with
    | none => bubblesPassFrom w time treble sinO rBrown rPop l i
    | some b =>
      match updateBubble b w time treble sinO (rBrown i) (rPop i) with
      | none => bubblesPassFrom w time treble sinO rBrown rPop (l.eraseIdx i) i
      | some b2 => bubblesPassFrom w time treble sinO rBrown rPop (l.set i b2) i

/-- One full renderBubbles update pass over the pool (the backward loop
starting at `this.bubbles.length - 1`). -/
def bubblesPass (w time treble : JsNum) (sinO : ℚ → ℚ) (rBrown rPop : ℕ → ℚ)
    (l : List Bubble) : List Bubble :=
  bubblesPassFrom w time treble sinO rBrown rPop l l.length

/-- Modelled from the spec of claim C10, for comparison with `bubblesPass`:
update each bubble of the pool independently (the bubble at original index
i consuming the draws of index i) and delete exactly those whose update
reports removal. -/
def bubblesIndependent (w time treble : JsNum) (sinO : ℚ → ℚ)
    (rBrown rPop : ℕ → ℚ) : ℕ → List Bubble → List Bubble
  | _, [] => []
  | i, b :: rest =>
    match updateBubble b w time treble sinO (rBrown i) (rPop i) with
    | none => bubblesIndependent w time treble sinO rBrown rPop (i + 1) rest
    | some b2 => b2 :: bubblesIndependent w time treble sinO rBrown rPop (i + 1) rest

/-- The Math.random() draws consumed by one renderBubbles invocation. -/
structure FrameRand where
  spawn : ℚ
  create : ℕ → ℚ
  brown : ℕ → ℚ
  pop : ℕ → ℚ

/-- Method renderBubbles, state effects: on `bassIntensity > 0.5 &&
Math.random() > 0.8` push a fresh bubble, then run the update/splice loop
(the pushed bubble is part of the pool the loop starts from). -/
def renderBubblesState (bubbles : List Bubble) (w h time : JsNum)
    (bassI trebleI : JsNum) (sinO : ℚ → ℚ) (R : FrameRand) : List Bubble :=
  let l :=
    if jsGt bassI (some (1/2)) && decide ((4/5 : ℚ) < R.spawn) then
      bubbles ++ [createBubble w h R.create]
    else bubbles
  bubblesPass w time trebleI sinO R.brown R.pop l

/-!  Voronoi pattern (method renderVoronoi): the seed animation is the only
state effect; the per-pixel nearest-seed scan and the glows are pixel
output. -/

/-- Seed animation of renderVoronoi for the seed at index i. -/
def voronoiSeedUpdate (i : ℕ) (seed : VoronoiSeed) (cx cy time : JsNum)
    (bassI midI : JsNum) (sinO cosO : ℚ → ℚ) : VoronoiSeed :=
  let angle := jsAdd (jsMul time (some (1/1000))) (some (i : ℚ))
  let radius := jsAdd (some 50)
    (jsMul (jsFn sinO (jsAdd (jsMul time (some (1/500))) (some (i : ℚ)))) (some 30))
  { x := jsAdd cx (jsMul (jsMul (jsFn cosO angle) radius) (jsAdd (some 1) bassI))
    y := jsAdd cy (jsMul (jsMul (jsFn sinO (jsMul angle (some (13/10)))) radius)
      (jsAdd (some 1) bassI))
    hue := jsMod (jsAdd (jsAdd seed.hue (some (1/2))) midI) (some 360) }

/-- Method renderVoronoi, state effects. -/
def renderVoronoiState (seeds : List VoronoiSeed) (cx cy time : JsNum)
    (bassI midI : JsNum) (sinO cosO : ℚ → ℚ) : List VoronoiSeed :=
  seeds.enum.map (fun p => voronoiSeedUpdate p.1 p.2 cx cy time bassI midI sinO cosO)

/-!  Swarm pattern (method renderSwarm): sequential in-place flocking
update of the particle pool; the trail/glow drawing is pixel output. -/

/-- Accumulators of the flocking inner loop. -/
structure FlockAcc where
  alignX : JsNum
  alignY : JsNum
  cohereX : JsNum
  cohereY : JsNum
  separateX : JsNum
  separateY : JsNum
  neighbors : ℕ

/-- The flocking inner loop of renderSwarm (`for j`; the `i === j` slot is
skipped): accumulate alignment, cohesion and separation over neighbors
within the perception radius. -/
def flockForces (ps : List Particle) (i : ℕ) (p : Particle)
    (perceptionRadius : JsNum) (sqrtO : ℚ → ℚ) : FlockAcc :=
  ps.enum.foldl
    (fun acc q =>
      if q.1 = i then acc
      else
        let other := q.2
        let dx := jsSub other.x p.x
        let dy := jsSub other.y p.y
        let dist := jsFn sqrtO (jsAdd (jsMul dx dx) (jsMul dy dy))
        if jsLt dist perceptionRadius && jsGt dist (some 0) then
          { alignX := jsAdd acc.alignX other.vx
            alignY := jsAdd acc.alignY other.vy
            cohereX := jsAdd acc.cohereX other.x
            cohereY := jsAdd acc.cohereY other.y
            separateX := if jsLt dist (some 30) then
                jsSub acc.separateX (jsDiv dx dist) else acc.separateX
            separateY := if jsLt dist (some 30) then
                jsSub acc.separateY (jsDiv dy dist) else acc.separateY
            neighbors := acc.neighbors + 1 }
        else acc)
    { alignX := some 0, alignY := some 0, cohereX := some 0, cohereY := some 0
      separateX := some 0, separateY := some 0, neighbors := 0 }

/-- The renderSwarm loop body for the particle at index i of the current
pool: flocking forces, center attraction, velocity clamp, position update
with wrap-around, and the bounded trail push. -/
def swarmUpdateOne (ps : List Particle) (i : ℕ) (p : Particle)
    (w h cx cy : JsNum) (audioI bassI trebleI : JsNum) (sqrtO : ℚ → ℚ) :
    Particle :=
  let perceptionRadius := jsAdd (some 50) (jsMul audioI (some 50))
  let acc := flockForces ps i p perceptionRadius sqrtO
  let n := acc.neighbors
  let alignX := if 0 < n then jsDiv acc.alignX (some (n : ℚ)) else acc.alignX
  let alignY := if 0 < n then jsDiv acc.alignY (some (n : ℚ)) else acc.alignY
  let cohereX := if 0 < n then
      jsMul (jsSub (jsDiv acc.cohereX (some (n : ℚ))) p.x) (some (1/100))
    else acc.cohereX
  let cohereY := if 0 < n then
      jsMul (jsSub (jsDiv acc.cohereY (some (n : ℚ))) p.y) (some (1/100))
    else acc.cohereY
  let separateX := if 0 < n then jsMul acc.separateX (some (1/20)) else acc.separateX
  let separateY := if 0 < n then jsMul acc.separateY (some (1/20)) else acc.separateY
  let dx := jsSub cx p.x
  let dy := jsSub cy p.y
  let dist := jsFn sqrtO (jsAdd (jsMul dx dx) (jsMul dy dy))
  let centerForce := jsMul (some (1/1000)) (jsAdd (some 1) (jsMul bassI (some 2)))
  let vx1 := jsAdd p.vx (jsAdd (jsAdd (jsAdd (jsMul alignX (some (1/50))) cohereX)
    separateX) (jsMul (jsDiv dx dist) centerForce))
  let vy1 := jsAdd p.vy (jsAdd (jsAdd (jsAdd (jsMul alignY (some (1/50))) cohereY)
    separateY) (jsMul (jsDiv dy dist) centerForce))
  let maxSpeed := jsAdd (some 2) (jsMul trebleI (some 3))
  let speed := jsFn sqrtO (jsAdd (jsMul vx1 vx1) (jsMul vy1 vy1))
  let vx2 := if jsGt speed maxSpeed then jsMul (jsDiv vx1 speed) maxSpeed else vx1
  let vy2 := if jsGt speed maxSpeed then jsMul (jsDiv vy1 speed) maxSpeed else vy1
  let x1 := jsAdd p.x vx2
  let y1 := jsAdd p.y vy2
  let x2 := if jsLt x1 (some 0) then w else x1
  let x3 := if jsGt x2 w then some 0 else x2
  let y2 := if jsLt y1 (some 0) then h else y1
  let y3 := if jsGt y2 h then some 0 else y2
  let trail1 := p.trail ++ [{ x := x3, y := y3, alpha := some 1 }]
  let trail2 := if 20 < trail1.length then trail1.tail else trail1
  { p with vx := vx2, vy := vy2, x := x3, y := y3, trail := trail2 }

/-- The renderSwarm outer loop (`for i` ascending, mutating the pool in
place): the second argument is the next index to visit, the third the
number of indices still to visit (the source evaluates
`this.particles.length` once per comparison, but the loop never changes
the length, so the initial length is faithful). -/
def swarmIter (w h cx cy : JsNum) (audioI bassI trebleI : JsNum)
    (sqrtO : ℚ → ℚ) : List Particle → ℕ → ℕ → List Particle
  | ps, _, 0 => ps
  | ps, i, k + 1 =>
    let ps2 :=
      match ps.get? i with
      | none => ps
      | some p => ps.set i (swarmUpdateOne ps i p w h cx cy audioI bassI trebleI sqrtO)
    swarmIter w h cx cy audioI bassI trebleI sqrtO ps2 (i + 1) k

/-- Method renderSwarm, state effects. -/
def renderSwarmState (ps : List Particle) (w h cx cy : JsNum)
    (audioI bassI trebleI : JsNum) (sqrtO : ℚ → ℚ) : List Particle :=
  swarmIter w h cx cy audioI bassI trebleI sqrtO ps 0 ps.length

/-!  Fractal pattern (method renderFractal): the Julia parameter / zoom
animation is the state effect; the per-pixel escape-time loop feeds pixel
output only, and is modelled separately for claim C8. -/

/-- Source, renderFractal: `const maxIter = 50 + Math.floor(audioIntensity * 50)`. -/
def fractalMaxIter (audioIntensity : ℚ) : ℤ := 50 + ⌊audioIntensity * 50⌋

/-- The per-pixel escape-time loop of renderFractal:
`while (x * x + y * y <= 4 && iter < maxIter) { ... iter++ }`.
The last argument is fuel; the loop is called with more fuel than the
iteration cap allows, so the fuel never runs out.  Returns the final iter. -/
def juliaLoop (cRe cIm : JsNum) (maxIter : ℤ) : JsNum → JsNum → ℕ → ℕ → ℕ
  | _, _, iter, 0 => iter
  | x, y, iter, fuel + 1 =>
    if jsLe (jsAdd (jsMul x x) (jsMul y y)) (some 4) && decide ((iter : ℤ) < maxIter) then
      let xtemp := jsAdd (jsSub (jsMul x x) (jsMul y y)) cRe
      let y2 := jsAdd (jsMul (jsMul (some 2) x) y) cIm
      juliaLoop cRe cIm maxIter xtemp y2 (iter + 1) fuel
    else iter

/-- The escape-time iteration count for one pixel start point. -/
def juliaEscape (cRe cIm x0 y0 : JsNum) (maxIter : ℤ) : ℕ :=
  juliaLoop cRe cIm maxIter x0 y0 0 (maxIter.toNat + 1)

/-- Pixel-to-complex-plane mapping of renderFractal:
`x0 = ((px - centerX) / (width * 0.25)) / zoom + fractalOffsetX` and the
analogous y0.  `zoomFactor` stands for `Math.pow(1.5, this.fractalZoom)`,
an arbitrary rational here (0 models the float underflow of the power for
very negative zoom; jsDiv then yields `none`, and the JS infinity it
stands for also fails the loop guard immediately). -/
def fractalPixel (px py cx cy w h zoomFactor ox oy : JsNum) : JsNum × JsNum :=
  (jsAdd (jsDiv (jsDiv (jsSub px cx) (jsMul w (some (1/4)))) zoomFactor) ox,
   jsAdd (jsDiv (jsDiv (jsSub py cy) (jsMul h (some (1/4)))) zoomFactor) oy)

/-!  Engine facade: the full private state of FlowFieldRenderer, resize,
and render. -/

/-- The abstracted host environment: Math.PI and the transcendental
functions, as arbitrary rational implementations. -/
structure HostEnv where
  piC : ℚ
  sinO : ℚ → ℚ
  cosO : ℚ → ℚ
  sqrtO : ℚ → ℚ

/-- The Math.random() draws consumed by the three pool initializers (in
the constructor and in resize). -/
structure PoolRand where
  particleDraw : ℕ → ℕ → ℚ
  bubbleCount : ℚ
  bubbleDraw : ℕ → ℕ → ℚ
  seedCount : ℚ
  seedDraw : ℕ → ℕ → ℚ

/-- The mutable private fields of FlowFieldRenderer (canvas and drawing
context are the pixel surface, out of the model). -/
structure EngineState where
  particles : List Particle
  bubbles : List Bubble
  voronoiSeeds : List VoronoiSeed
  time : JsNum
  width : JsNum
  height : JsNum
  centerX : JsNum
  centerY : JsNum
  hueBase : JsNum
  sched : SchedulerState
  fractalZoom : JsNum
  fractalOffsetX : JsNum
  fractalOffsetY : JsNum
  juliaCRe : JsNum
  juliaCIm : JsNum

/-- The constructor: geometry from the canvas, field initializers
(time 0, hueBase 0, scheduler defaults, fractal defaults
zoom 1, offset (-0.5, 0), c = -0.7 + 0.27i), then the three pool
initializers. -/
def initialEngine (w h : JsNum) (E : HostEnv) (R : PoolRand) : EngineState :=
  { particles := initializeParticles w h (jsDiv w (some 2)) (jsDiv h (some 2))
      E.piC E.sinO E.cosO R.particleDraw
    bubbles := initializeBubbles w h R.bubbleCount R.bubbleDraw
    voronoiSeeds := initializeVoronoiSeeds w h R.seedCount R.seedDraw
    time := some 0
    width := w
    height := h
    centerX := jsDiv w (some 2)
    centerY := jsDiv h (some 2)
    hueBase := some 0
    sched := initialScheduler
    fractalZoom := some 1
    fractalOffsetX := some (-1/2)
    fractalOffsetY := some 0
    juliaCRe := some (-7/10)
    juliaCIm := some (27/100) }

/-- Method resize(width, height): new dimensions and center (the canvas
resize itself is pixel-surface bookkeeping), then re-run the three pool
initializers against the new geometry.  Everything else is untouched. -/
def resize (s : EngineState) (w h : JsNum) (E : HostEnv) (R : PoolRand) :
    EngineState :=
  { s with
    width := w
    height := h
    centerX := jsDiv w (some 2)
    centerY := jsDiv h (some 2)
    particles := initializeParticles w h (jsDiv w (some 2)) (jsDiv h (some 2))
      E.piC E.sinO E.cosO R.particleDraw
    bubbles := initializeBubbles w h R.bubbleCount R.bubbleDraw
    voronoiSeeds := initializeVoronoiSeeds w h R.seedCount R.seedDraw }

/-- Method renderPattern: the switch dispatching one pattern tag to its
renderer.  Only fractal, bubbles, voronoi and swarm touch engine state;
rays, tunnel, waves, mandala, dna and plasma are pure pixel output. -/
def renderPatternState (s : EngineState) (p : Pattern)
    (audioI bassI midI trebleI : JsNum) (E : HostEnv) (R : FrameRand) :
    EngineState :=
  match p with
  | .fractal =>
    { s with
      juliaCRe := jsAdd (jsAdd (some (-7/10))
          (jsMul (jsFn E.sinO (jsMul s.time (some (1/1000)))) (some (1/5))))
        (jsMul bassI (some (1/10)))
      juliaCIm := jsAdd (jsAdd (some (27/100))
          (jsMul (jsFn E.cosO (jsMul s.time (some (3/2000)))) (some (1/5))))
        (jsMul midI (some (1/10)))
      fractalZoom := jsAdd s.fractalZoom
        (jsMul (jsAdd (some (1/50)) (jsMul audioI (some (1/20))))
          (jsAdd (some 1) (jsMul (jsFn E.sinO (jsMul s.time (some (1/500)))) (some (1/2))))) }
  | .bubbles =>
    { s with bubbles := (renderBubblesState s.bubbles s.width s.height s.time
        bassI trebleI E.sinO R) }
  | .voronoi =>
    { s with voronoiSeeds := (renderVoronoiState s.voronoiSeeds s.centerX s.centerY
        s.time bassI midI E.sinO E.cosO) }
  | .swarm =>
    { s with particles := (renderSwarmState s.particles s.width s.height
        s.centerX s.centerY audioI bassI trebleI E.sqrtO) }
  | _ => s

/-- Method render(dataArray, bufferLength): extract the four audio scalars,
advance time, advance hueBase by `(hueBase + 0.3 + bassIntensity * 1.5) %
360`, run the scheduler, then (after the fade fill, pixel output) dispatch
either the current pattern or, during a transition, the outgoing then the
incoming pattern.  `R1` and `R2` are the draws of the first and second
dispatched renderer. -/
def render (s : EngineState) (dataArray : List ℕ) (bufferLength : ℕ)
    (E : HostEnv) (R1 R2 : FrameRand) : EngineState :=
  let audioI := audioIntensityOf dataArray bufferLength
  let bassI := bassIntensityOf dataArray bufferLength
  let midI := midIntensityOf dataArray bufferLength
  let trebleI := trebleIntensityOf dataArray bufferLength
  let s1 := { s with
    time := jsAdd s.time (some 1)
    hueBase := jsMod (jsAdd (jsAdd s.hueBase (some (3/10))) (jsMul bassI (some (3/2))))
      (some 360)
    sched := updatePatternTransition s.sched audioI }
  if s1.sched.isTransitioning then
    renderPatternState
      (renderPatternState s1 s1.sched.currentPattern audioI bassI midI trebleI E R1)
      s1.sched.nextPattern audioI bassI midI trebleI E R2
  else
    renderPatternState s1 s1.sched.currentPattern audioI bassI midI trebleI E R1

/-- A sequence of render calls in the only caller's shape
(FlowFieldBackground.tsx: `renderer.render(dataArray, dataArray.length)`),
frame k consuming the draw pair `RF k`. -/
def engineRun (E : HostEnv) (RF : ℕ → FrameRand × FrameRand) :
    EngineState → ℕ → List (List ℕ) → EngineState
  | s, _, [] => s
  | s, k, d :: rest =>
    engineRun E RF (render s d d.length E (RF k).1 (RF k).2) (k + 1) rest

/-!  Support definitions for the statements below: the scheduler coherence
invariant, iterated runs at a constant intensity, and concrete host /
randomness instantiations used as evaluation fixtures. -/

/-- Coherence of a scheduler state with the number `c` of transitions
completed so far since the initial state: outside a transition the index
and the active pattern are determined by `c`; during a transition the
index has already advanced to the incoming pattern. -/
def SchedCoherent (s : SchedulerState) (c : ℕ) : Prop :=
  if s.isTransitioning then
    s.patternIndex = (c + 1) % 10 ∧ s.currentPattern = patternAt (c % 10) ∧
      s.nextPattern = patternAt ((c + 1) % 10)
  else
    s.patternIndex = c % 10 ∧ s.currentPattern = patternAt (c % 10)

/-- The scheduler iterated from its initial state at a constant per-frame
audio intensity. -/
def schedConst (intensity : JsNum) : ℕ → SchedulerState
  | 0 => initialScheduler
  | k + 1 => updatePatternTransition (schedConst intensity k) intensity

/-- A concrete host environment (evaluation fixture). -/
def zeroEnv : HostEnv :=
  { piC := 0, sinO := fun _ => 0, cosO := fun _ => 0, sqrtO := fun _ => 0 }

/-- Concrete pool-initializer draws (evaluation fixture). -/
def zeroPool : PoolRand :=
  { particleDraw := fun _ _ => 0, bubbleCount := 0, bubbleDraw := fun _ _ => 0
    seedCount := 0, seedDraw := fun _ _ => 0 }

/-- Concrete per-frame draws (evaluation fixture). -/
def zeroFrame : FrameRand :=
  { spawn := 0, create := fun _ => 0, brown := fun _ => 0, pop := fun _ => 0 }

/-- A scheduler state in the middle of a transition (evaluation fixture). -/
def sampleTransitioningSched : SchedulerState :=
  { initialScheduler with isTransitioning := true, patternTimer := some 5 }

/-- A transitioning scheduler state whose next step commits (evaluation
fixture). -/
def sampleCommitSched : SchedulerState :=
  { initialScheduler with
      isTransitioning := true
      transitionProgress := some (99/100) }

/-- A rising bubble whose age already exceeds its maxAge (evaluation
fixture). -/
def sampleRisingBubble : Bubble :=
  { x := some 50, y := some 50, vx := some 0, vy := some 0, radius := some 10
    hue := some 0, age := some 500, maxAge := some 300, popping := false
    popProgress := some 0 }

/-- A popping bubble one step away from removal (evaluation fixture). -/
def samplePoppingBubble : Bubble :=
  { x := some 50, y := some 50, vx := some 0, vy := some 0, radius := some 10
    hue := some 0, age := some 100, maxAge := some 300, popping := true
    popProgress := some (19/20) }

/-!  General lemmas about the embedded operations. -/

lemma swarmIter_length (w h cx cy a b t : JsNum) (q : ℚ → ℚ) :
    ∀ (k : ℕ) (ps : List Particle) (i : ℕ),
      (swarmIter w h cx cy a b t q ps i k).length = ps.length := by
  intro k
  induction k with
  | zero => intro ps i; rfl
  | succ k ih =>
    intro ps i
    rw [swarmIter]
    cases hg : ps.get? i with
    | none => simp only [hg]; exact ih ps (i + 1)
    | some p =>
      simp only [hg]
      rw [ih]
      exact List.length_set ..

lemma renderSwarmState_length (ps : List Particle) (w h cx cy a b t : JsNum)
    (q : ℚ → ℚ) : (renderSwarmState ps w h cx cy a b t q).length = ps.length :=
  swarmIter_length w h cx cy a b t q ps.length ps 0

lemma renderPatternState_hueBase (s : EngineState) (p : Pattern)
    (a b m t : JsNum) (E : HostEnv) (R : FrameRand) :
    (renderPatternState s p a b m t E R).hueBase = s.hueBase := by
  cases p <;> rfl

lemma renderPatternState_sched (s : EngineState) (p : Pattern)
    (a b m t : JsNum) (E : HostEnv) (R : FrameRand) :
    (renderPatternState s p a b m t E R).sched = s.sched := by
  cases p <;> rfl

lemma renderPatternState_particles_length (s : EngineState) (p : Pattern)
    (a b m t : JsNum) (E : HostEnv) (R : FrameRand) :
    (renderPatternState s p a b m t E R).particles.length = s.particles.length := by
  cases p <;> first
    | rfl
    | exact renderSwarmState_length ..

lemma render_hueBase (s : EngineState) (d : List ℕ) (n : ℕ) (E : HostEnv)
    (R1 R2 : FrameRand) :
    (render s d n E R1 R2).hueBase =
      jsMod (jsAdd (jsAdd s.hueBase (some (3/10)))
        (jsMul (bassIntensityOf d n) (some (3/2)))) (some 360) := by
  rw [render]
  split <;> simp only [renderPatternState_hueBase]

lemma render_sched (s : EngineState) (d : List ℕ) (n : ℕ) (E : HostEnv)
    (R1 R2 : FrameRand) :
    (render s d n E R1 R2).sched =
      updatePatternTransition s.sched (audioIntensityOf d n) := by
  rw [render]
  split <;> simp only [renderPatternState_sched]

lemma render_particles_length (s : EngineState) (d : List ℕ) (n : ℕ)
    (E : HostEnv) (R1 R2 : FrameRand) :
    (render s d n E R1 R2).particles.length = s.particles.length := by
  rw [render]
  split <;> simp only [renderPatternState_particles_length]

lemma initializeParticles_length (w h cx cy : JsNum) (piC : ℚ)
    (sinO cosO : ℚ → ℚ) (rand : ℕ → ℕ → ℚ) :
    (initializeParticles w h cx cy piC sinO cosO rand).length = particleCount w h := by
  simp [initializeParticles]

/-- C9: resize(width, height) re-initializes the three entity pools and
updates the surface dimensions and center, and changes nothing else: the
scheduler state, time, hueBase and the fractal parameters are all left
unchanged, so the engine is in a valid steady state with the same
scheduler state after any resize. -/
theorem resize_new_pools_same_scheduler (s : EngineState) (w h : JsNum)
    (E : HostEnv) (P : PoolRand) :
    (resize s w h E P).sched = s.sched ∧
    (resize s w h E P).time = s.time ∧
    (resize s w h E P).hueBase = s.hueBase ∧
    (resize s w h E P).fractalZoom = s.fractalZoom ∧
    (resize s w h E P).fractalOffsetX = s.fractalOffsetX ∧
    (resize s w h E P).fractalOffsetY = s.fractalOffsetY ∧
    (resize s w h E P).juliaCRe = s.juliaCRe ∧
    (resize s w h E P).juliaCIm = s.juliaCIm ∧
    (resize s w h E P).width = w ∧
    (resize s w h E P).height = h ∧
    (resize s w h E P).centerX = jsDiv w (some 2) ∧
    (resize s w h E P).centerY = jsDiv h (some 2) ∧
    (resize s w h E P).particles =
      initializeParticles w h (jsDiv w (some 2)) (jsDiv h (some 2))
        E.piC E.sinO E.cosO P.particleDraw ∧
    (resize s w h E P).bubbles = initializeBubbles w h P.bubbleCount P.bubbleDraw ∧
    (resize s w h E P).voronoiSeeds =
      initializeVoronoiSeeds w h P.seedCount P.seedDraw :=
  ⟨rfl, rfl, rfl, rfl, rfl, rfl, rfl, rfl, rfl, rfl, rfl, rfl, rfl, rfl, rfl⟩

/-- C7: for nonnegative dimensions, resize(w, h) followed immediately by a
render call (a total function of the model: nothing in the modelled code
throws) leaves the particle pool re-created by resize with exactly
min(1200, floor(w*h/800)) particles. -/
theorem resize_render_particle_count (s : EngineState) (w h : ℚ)
    (hw : 0 ≤ w) (hh : 0 ≤ h) (E : HostEnv) (P : PoolRand)
    (d : List ℕ) (n : ℕ) (R1 R2 : FrameRand) :
    ((render (resize s (some w) (some h) E P) d n E R1 R2).particles.length : ℤ)
      = min 1200 ⌊w * h / 800⌋ := by
  rw [render_particles_length]
  show (((resize s (some w) (some h) E P).particles).length : ℤ) = _
  rw [show (resize s (some w) (some h) E P).particles =
      initializeParticles (some w) (some h) (jsDiv (some w) (some 2))
        (jsDiv (some h) (some 2)) E.piC E.sinO E.cosO P.particleDraw from rfl]
  rw [initializeParticles_length]
  have hwh : (0 : ℚ) ≤ w * h := mul_nonneg hw hh
  have hfl : (0 : ℤ) ≤ ⌊w * h / 800⌋ := by
    apply Int.floor_nonneg.mpr
    positivity
  have : particleCount (some w) (some h) = (min 1200 ⌊w * h / 800⌋).toNat := rfl
  rw [this]
  rw [Int.toNat_of_nonneg (le_min (by norm_num) hfl)]

/-- C7 witness: at dimensions 800 by 600 the pool re-created by resize and
untouched by the following render has min(1200, floor(800*600/800)) = 600
particles. -/
theorem resize_render_particle_count_witness :
    ((render (resize (initialEngine (some 100) (some 100) zeroEnv zeroPool)
        (some 800) (some 600) zeroEnv zeroPool) [] 0 zeroEnv zeroFrame
        zeroFrame).particles.length : ℤ) = min 1200 ⌊(800 : ℚ) * 600 / 800⌋ ∧
      min 1200 ⌊(800 : ℚ) * 600 / 800⌋ = 600 :=
  ⟨resize_render_particle_count _ 800 600 (by norm_num) (by norm_num) _ _ _ _ _ _,
   by norm_num⟩

/-- C8: the per-pixel escape-time loop of the fractal renderer, started
from the pixel-to-plane mapping for an arbitrary zoom factor (any rational,
of either sign, including the 0 that models float underflow of
Math.pow(1.5, zoom) at very negative zoom values), returns an iteration
count bounded by the configured cap maxIter = 50 + floor(audioIntensity *
50); the loop is a total function of the model, so rendering the fractal
pattern cannot throw for any zoom set through the zoom setter. -/
theorem julia_loop_bounded_any_zoom (intensity : ℚ)
    (zoomFactor px py cx cy w h ox oy cRe cIm : JsNum) :
    juliaEscape cRe cIm
        (fractalPixel px py cx cy w h zoomFactor ox oy).1
        (fractalPixel px py cx cy w h zoomFactor ox oy).2
        (fractalMaxIter intensity)
      ≤ (fractalMaxIter intensity).toNat := by
  have key : ∀ (fuel : ℕ) (x y : JsNum) (iter : ℕ),
      juliaLoop cRe cIm (fractalMaxIter intensity) x y iter fuel
        ≤ max iter (fractalMaxIter intensity).toNat := by
    intro fuel
    induction fuel with
    | zero => intro x y iter; exact le_max_left ..
    | succ fuel ih =>
      intro x y iter
      rw [juliaLoop]
      split
      · rename_i hcond
        have hlt : (iter : ℤ) < fractalMaxIter intensity := by
          have := (Bool.and_eq_true ..).mp hcond
          exact of_decide_eq_true this.2
        have hle : iter + 1 ≤ (fractalMaxIter intensity).toNat := by omega
        exact le_trans (ih _ _ (iter + 1)) (by omega)
      · exact le_max_left ..
  have := key ((fractalMaxIter intensity).toNat + 1)
    (fractalPixel px py cx cy w h zoomFactor ox oy).1
    (fractalPixel px py cx cy w h zoomFactor ox oy).2 0
  simpa [juliaEscape] using this

/-!  Lemmas for the bubble-pool pass (claim C10). -/

lemma eraseIdx_append_cons {α : Type} (p : List α) (b : α) (t : List α) :
    (p ++ b :: t).eraseIdx p.length = p ++ t := by
  induction p with
  | nil => rfl
  | cons a p ih => simpa [List.eraseIdx] using ih

lemma set_append_cons {α : Type} (p : List α) (b c : α) (t : List α) :
    (p ++ b :: t).set p.length c = p ++ c :: t := by
  induction p with
  | nil => rfl
  | cons a p ih => simp [List.set, ih]

lemma get?_append_cons {α : Type} (p : List α) (b : α) (t : List α) :
    (p ++ b :: t).get? p.length = some b := by
  induction p with
  | nil => rfl
  | cons a p ih => simpa using ih

lemma bubblesIndependent_append (w time treble : JsNum) (sinO : ℚ → ℚ)
    (rB rP : ℕ → ℚ) (i : ℕ) (p q : List Bubble) :
    bubblesIndependent w time treble sinO rB rP i (p ++ q) =
      bubblesIndependent w time treble sinO rB rP i p ++
        bubblesIndependent w time treble sinO rB rP (i + p.length) q := by
  induction p generalizing i with
  | nil => simp [bubblesIndependent]
  | cons b p ih =>
    rw [List.cons_append, bubblesIndependent, bubblesIndependent]
    cases updateBubble b w time treble sinO (rB i) (rP i) with
    | none => rw [ih]; simp only [List.length_cons]; ring_nf
    | some b2 =>
      rw [ih]
      simp only [List.length_cons, List.cons_append]
      ring_nf

lemma bubblesPassFrom_spec (w time treble : JsNum) (sinO : ℚ → ℚ)
    (rB rP : ℕ → ℚ) (pre : List Bubble) :
    ∀ suf : List Bubble,
      bubblesPassFrom w time treble sinO rB rP (pre ++ suf) pre.length =
        bubblesIndependent w time treble sinO rB rP 0 pre ++ suf := by
  induction pre using List.reverseRecOn with
  | nil => intro suf; simp [bubblesPassFrom, bubblesIndependent]
  | append_singleton p b ih =>
    intro suf
    have hlen : (p ++ [b]).length = p.length + 1 := by simp
    rw [hlen, List.append_assoc, List.singleton_append, bubblesPassFrom]
    simp only [get?_append_cons]
    rw [bubblesIndependent_append]
    cases hu : updateBubble b w time treble sinO (rB p.length) (rP p.length) with
    | none =>
      simp only [hu, eraseIdx_append_cons, ih suf]
      simp [bubblesIndependent, hu]
    | some b2 =>
      simp only [hu, set_append_cons, ih (b2 :: suf)]
      simp [bubblesIndependent, hu]

/-!  Scheduler lemmas (claims C2, C3, C5). -/

lemma patternSequence_length : patternSequence.length = 10 := rfl

lemma updatePT_commit (s : SchedulerState) (i : JsNum)
    (htr : s.isTransitioning = true)
    (hge : jsGe (nextProgress s i) (some 1) = true) :
    updatePatternTransition s i =
      { s with transitionProgress := some 0, isTransitioning := false,
               currentPattern := s.nextPattern, patternTimer := some 0 } := by
  rw [updatePatternTransition, if_pos htr, if_pos hge]

lemma updatePT_continue (s : SchedulerState) (i : JsNum)
    (htr : s.isTransitioning = true)
    (hge : jsGe (nextProgress s i) (some 1) = false) :
    updatePatternTransition s i =
      { s with patternTimer := jsAdd s.patternTimer (some 1),
               transitionProgress := nextProgress s i } := by
  rw [updatePatternTransition, if_pos htr, if_neg (by simp [hge])]

lemma updatePT_begin (s : SchedulerState) (i : JsNum)
    (htr : s.isTransitioning = false)
    (hgt : jsGt (jsAdd s.patternTimer (some 1))
      (dynamicDuration s.patternDuration i) = true) :
    updatePatternTransition s i =
      { s with patternTimer := jsAdd s.patternTimer (some 1),
               isTransitioning := true, transitionProgress := some 0,
               patternIndex := (s.patternIndex + 1) % patternSequence.length,
               nextPattern := patternAt ((s.patternIndex + 1) % patternSequence.length) } := by
  rw [updatePatternTransition, if_neg (by simp [htr]), if_pos hgt]

lemma updatePT_steady (s : SchedulerState) (i : JsNum)
    (htr : s.isTransitioning = false)
    (hgt : jsGt (jsAdd s.patternTimer (some 1))
      (dynamicDuration s.patternDuration i) = false) :
    updatePatternTransition s i =
      { s with patternTimer := jsAdd s.patternTimer (some 1) } := by
  rw [updatePatternTransition, if_neg (by simp [htr]), if_neg (by simp [hgt])]

lemma schedCoherent_step (s : SchedulerState) (c : ℕ) (i : JsNum)
    (h : SchedCoherent s c) :
    SchedCoherent (updatePatternTransition s i)
      (c + (if s.isTransitioning && !(updatePatternTransition s i).isTransitioning
        then 1 else 0)) := by
  cases htr : s.isTransitioning with
  | true =>
    rw [SchedCoherent, htr, if_pos rfl] at h
    cases hge : jsGe (nextProgress s i) (some 1) with
    | true =>
      rw [updatePT_commit s i htr hge]
      rw [SchedCoherent]
      simp only [htr, Bool.not_false, Bool.and_true, if_pos rfl, if_neg Bool.false_ne_true]
      exact ⟨h.1, h.2.2⟩
    | false =>
      rw [updatePT_continue s i htr hge]
      rw [SchedCoherent]
      simp only [htr, Bool.not_true, Bool.and_false, if_neg Bool.false_ne_true,
        if_pos rfl, Nat.add_zero]
      exact h
  | false =>
    rw [SchedCoherent, htr, if_neg Bool.false_ne_true] at h
    cases hgt : jsGt (jsAdd s.patternTimer (some 1))
        (dynamicDuration s.patternDuration i) with
    | true =>
      rw [updatePT_begin s i htr hgt]
      rw [SchedCoherent]
      simp only [htr, Bool.false_and, if_neg Bool.false_ne_true, if_pos rfl,
        Nat.add_zero]
      refine ⟨?_, h.2, ?_⟩
      · rw [patternSequence_length, h.1]; omega
      · rw [patternSequence_length, h.1]; congr 1; omega
    | false =>
      rw [updatePT_steady s i htr hgt]
      rw [SchedCoherent]
      simp only [htr, Bool.false_and, if_neg Bool.false_ne_true, Nat.add_zero]
      exact h

lemma schedCoherent_run (is : List JsNum) :
    ∀ (s : SchedulerState) (c : ℕ), SchedCoherent s c →
      SchedCoherent (schedulerRun s is).1 (c + (schedulerRun s is).2) := by
  induction is with
  | nil => intro s c h; exact h
  | cons i is ih =>
    intro s c h
    rw [schedulerRun]
    have step := schedCoherent_step s c i h
    have tail := ih (updatePatternTransition s i) _ step
    show SchedCoherent (schedulerRun (updatePatternTransition s i) is).1 _
    have harith :
        c + ((schedulerRun (updatePatternTransition s i) is).2 +
          (if s.isTransitioning && !(updatePatternTransition s i).isTransitioning
            then 1 else 0)) =
        c + (if s.isTransitioning && !(updatePatternTransition s i).isTransitioning
            then 1 else 0) + (schedulerRun (updatePatternTransition s i) is).2 := by
      omega
    rw [harith]
    exact tail

lemma schedCoherent_initial : SchedCoherent initialScheduler 0 := by
  constructor <;> rfl

/-- C5: the succession of active patterns is fixed and deterministic (the
run is a function of the intensity trace alone; there is no randomness in
the scheduler): after any trace, the active pattern is the entry of the
10-element pattern sequence at index (number of completed transitions mod
10), starting from patternSequence[0] = rays at pattern index 0.  In
particular, after exactly 10 completed transitions the index is 10 mod 10
= 0 and the active pattern has returned to the original one. -/
theorem pattern_cycle_deterministic_period_ten (is : List JsNum) :
    (schedulerRun initialScheduler is).1.currentPattern =
        patternAt ((schedulerRun initialScheduler is).2 % 10) ∧
      initialScheduler.currentPattern = patternAt 0 := by
  have h := schedCoherent_run is initialScheduler 0 schedCoherent_initial
  rw [Nat.zero_add] at h
  constructor
  · rw [SchedCoherent] at h
    split at h
    · exact h.2.1
    · exact h.2
  · rfl

/-- C2 (amended): the scheduler evaluates exactly one transition rule per
frame.  When not transitioning it increments patternTimer, and if the new
patternTimer exceeds dynamicDuration = max(300, configuredDuration −
overallIntensity*200) it begins a transition (cyclic index advance,
nextPattern from the new index, isTransitioning true, transitionProgress
0); when transitioning it adds transitionSpeed*(1 + overallIntensity*0.5)
to transitionProgress and, once the sum reaches 1, commits
(currentPattern := nextPattern, transitionProgress 0, patternTimer 0,
isTransitioning false).  Contrary to the original claim, patternTimer is
incremented unconditionally in both branches (the final clause below); a
commit overwrites the increment with 0. -/
theorem scheduler_branch_rules (s : SchedulerState) (i : JsNum) :
    (s.isTransitioning = false →
      jsGt (jsAdd s.patternTimer (some 1))
          (dynamicDuration s.patternDuration i) = true →
      updatePatternTransition s i =
        { s with patternTimer := jsAdd s.patternTimer (some 1),
                 isTransitioning := true, transitionProgress := some 0,
                 patternIndex := (s.patternIndex + 1) % patternSequence.length,
                 nextPattern := patternAt ((s.patternIndex + 1) % patternSequence.length) }) ∧
    (s.isTransitioning = false →
      jsGt (jsAdd s.patternTimer (some 1))
          (dynamicDuration s.patternDuration i) = false →
      updatePatternTransition s i =
        { s with patternTimer := jsAdd s.patternTimer (some 1) }) ∧
    (s.isTransitioning = true → jsGe (nextProgress s i) (some 1) = true →
      updatePatternTransition s i =
        { s with transitionProgress := some 0, isTransitioning := false,
                 currentPattern := s.nextPattern, patternTimer := some 0 }) ∧
    (s.isTransitioning = true → jsGe (nextProgress s i) (some 1) = false →
      updatePatternTransition s i =
        { s with patternTimer := jsAdd s.patternTimer (some 1),
                 transitionProgress := nextProgress s i }) ∧
    ((updatePatternTransition s i).patternTimer =
      if s.isTransitioning && jsGe (nextProgress s i) (some 1) then some 0
      else jsAdd s.patternTimer (some 1)) := by
  refine ⟨updatePT_begin s i, updatePT_steady s i, updatePT_commit s i,
    updatePT_continue s i, ?_⟩
  cases htr : s.isTransitioning with
  | true =>
    cases hge : jsGe (nextProgress s i) (some 1) with
    | true => rw [updatePT_commit s i htr hge]; simp
    | false => rw [updatePT_continue s i htr hge]; simp
  | false =>
    cases hgt : jsGt (jsAdd s.patternTimer (some 1))
        (dynamicDuration s.patternDuration i) with
    | true => rw [updatePT_begin s i htr hgt]; simp
    | false => rw [updatePT_steady s i htr hgt]; simp

/-- C2 counterexample: in a transitioning state (5 frames on the timer,
progress 0), one scheduler step stays transitioning yet still increments
patternTimer from 5 to 6 — the original claim, which increments the timer
only in the not-transitioning branch, would have left it at 5. -/
theorem scheduler_timer_increment_cex :
    sampleTransitioningSched.isTransitioning = true ∧
    (updatePatternTransition sampleTransitioningSched (some 0)).isTransitioning = true ∧
    (updatePatternTransition sampleTransitioningSched (some 0)).patternTimer = some 6 := by
  have hge : jsGe (nextProgress sampleTransitioningSched (some 0)) (some 1) = false := by
    have hp : nextProgress sampleTransitioningSched (some 0) = some (1/50) := by
      norm_num [nextProgress, sampleTransitioningSched, initialScheduler, jsAdd, jsMul]
    rw [hp]
    simp only [jsGe, decide_eq_false_iff_not]
    norm_num
  refine ⟨rfl, ?_, ?_⟩
  · rw [updatePT_continue _ _ rfl hge]
    rfl
  · rw [updatePT_continue _ _ rfl hge]
    show jsAdd (some 5) (some 1) = some 6
    simp [jsAdd]
    norm_num

/-- C2 witness: the branch rules applied to a committing transition state
and to the steady initial state at intensity 0. -/
theorem scheduler_branch_rules_witness :
    updatePatternTransition sampleCommitSched (some 0) =
      { sampleCommitSched with
          transitionProgress := some 0
          isTransitioning := false
          currentPattern := sampleCommitSched.nextPattern
          patternTimer := some 0 } ∧
    updatePatternTransition initialScheduler (some 0) =
      { initialScheduler with
          patternTimer := jsAdd initialScheduler.patternTimer (some 1) } := by
  constructor
  · apply (scheduler_branch_rules sampleCommitSched (some 0)).2.2.1 rfl
    have hp : nextProgress sampleCommitSched (some 0) = some (101/100) := by
      norm_num [nextProgress, sampleCommitSched, initialScheduler, jsAdd, jsMul]
    rw [hp]
    simp only [jsGe, decide_eq_true_eq]
    norm_num
  · apply (scheduler_branch_rules initialScheduler (some 0)).2.1 rfl
    have hd : dynamicDuration initialScheduler.patternDuration (some 0) = some 600 := by
      norm_num [dynamicDuration, initialScheduler, jsMax, jsSub, jsMul]
    rw [hd]
    show jsGt (jsAdd (some 0) (some 1)) (some 600) = false
    norm_num [jsAdd, jsGt, jsLt]

/-!  Saturation of the audio scalars on an all-255 array, and the steady
phase length at full intensity (claims C1, C3, C4). -/

lemma getD_replicate (v : ℕ) : ∀ (n i : ℕ), i < n →
    (List.replicate n v).getD i 0 = v := by
  intro n
  induction n with
  | zero => intro i h; omega
  | succ n ih =>
    intro i h
    cases i with
    | zero => rw [List.replicate_succ]; exact List.getD_cons_zero
    | succ i => rw [List.replicate_succ, List.getD_cons_succ]; exact ih i (by omega)

lemma band_all255 (n : ℕ) (rl rh : ℚ)
    (h0 : 0 ≤ ⌊(n : ℚ) * rl⌋) (hlt : ⌊(n : ℚ) * rl⌋ < ⌊(n : ℚ) * rh⌋)
    (hub : ⌊(n : ℚ) * rh⌋ ≤ (n : ℤ)) :
    getFrequencyBandIntensity (List.replicate n 255) n rl rh = some 1 := by
  simp only [getFrequencyBandIntensity]
  set a := ⌊(n : ℚ) * rl⌋ with ha
  set b := ⌊(n : ℚ) * rh⌋ with hb
  have key : ∀ k ∈ List.range (b - a).toNat,
      jsIndexD (List.replicate n 255) (a + (k : ℤ)) = (255 : ℚ) := by
    intro k hk
    rw [List.mem_range] at hk
    have hik : (k : ℤ) < b - a := by omega
    have h0k : (0 : ℤ) ≤ a + (k : ℤ) := by omega
    rw [jsIndexD, if_pos h0k]
    have hlt2 : (a + (k : ℤ)).toNat < n := by omega
    rw [getD_replicate 255 n _ hlt2]
    norm_num
  have hsum : ((List.range (b - a).toNat).map
      (fun k : ℕ => jsIndexD (List.replicate n 255) (a + (k : ℤ)))).sum
      = ((b - a).toNat : ℚ) * 255 := by
    rw [List.map_congr_left key]
    simp [List.map_const', List.sum_replicate, nsmul_eq_mul]
  rw [hsum]
  have hm : (((b - a).toNat : ℕ) : ℚ) = (b : ℚ) - (a : ℚ) := by
    have h := Int.toNat_of_nonneg (by omega : (0 : ℤ) ≤ b - a)
    exact_mod_cast h
  have hbne : (b : ℚ) - (a : ℚ) ≠ 0 := by
    have : (a : ℚ) < (b : ℚ) := by exact_mod_cast hlt
    linarith
  rw [jsDiv, if_neg hbne, jsDiv]
  rw [if_neg (by norm_num : ((128 : ℚ)) ≠ 0)]
  rw [jsMin]
  have hval : ((b : ℚ) - (a : ℚ)) * 255 / ((b : ℚ) - (a : ℚ)) / 128 = 255 / 128 := by
    field_simp
  rw [hm, hval]
  rw [min_eq_left (by norm_num : (1 : ℚ) ≤ 255 / 128)]

lemma audio_all255 (n : ℕ) (hn : 0 < n) :
    audioIntensityOf (List.replicate n 255) n = some 1 := by
  have hne : ((n : ℚ)) ≠ 0 := by
    exact_mod_cast Nat.pos_iff_ne_zero.mp hn
  rw [audioIntensityOf, averageFrequency]
  rw [List.map_replicate, List.sum_replicate, nsmul_eq_mul]
  rw [jsDiv, if_neg hne, jsDiv]
  rw [if_neg (by norm_num : ((128 : ℚ)) ≠ 0)]
  rw [jsMin]
  have hval : (n : ℚ) * ((255 : ℕ) : ℚ) / (n : ℚ) / 128 = 255 / 128 := by
    push_cast
    field_simp
  rw [hval]
  rw [min_eq_left (by norm_num : (1 : ℚ) ≤ 255 / 128)]

lemma bass_band_floors (n : ℕ) (hn : 7 ≤ n) :
    0 ≤ ⌊(n : ℚ) * 0⌋ ∧ ⌊(n : ℚ) * 0⌋ < ⌊(n : ℚ) * (3/20)⌋ ∧
      ⌊(n : ℚ) * (3/20)⌋ ≤ (n : ℤ) := by
  have hn7 : (7 : ℚ) ≤ (n : ℚ) := by exact_mod_cast hn
  have hz : ⌊(n : ℚ) * 0⌋ = 0 := by norm_num
  refine ⟨by omega, ?_, ?_⟩
  · rw [hz]
    have : (1 : ℤ) ≤ ⌊(n : ℚ) * (3/20)⌋ := by
      apply Int.le_floor.mpr
      push_cast
      linarith
    omega
  · calc ⌊(n : ℚ) * (3/20)⌋ ≤ ⌊(n : ℚ)⌋ := by
          apply Int.floor_le_floor
          linarith
      _ = (n : ℤ) := Int.floor_natCast n

lemma mid_band_floors (n : ℕ) (hn : 7 ≤ n) :
    0 ≤ ⌊(n : ℚ) * (3/20)⌋ ∧ ⌊(n : ℚ) * (3/20)⌋ < ⌊(n : ℚ) * (1/2)⌋ ∧
      ⌊(n : ℚ) * (1/2)⌋ ≤ (n : ℤ) := by
  have hn7 : (7 : ℚ) ≤ (n : ℚ) := by exact_mod_cast hn
  have hfl : ((⌊(n : ℚ) * (3/20)⌋ : ℤ) : ℚ) ≤ (n : ℚ) * (3/20) := Int.floor_le _
  refine ⟨Int.floor_nonneg.mpr (by positivity), ?_, ?_⟩
  · have : ⌊(n : ℚ) * (3/20)⌋ + 1 ≤ ⌊(n : ℚ) * (1/2)⌋ := by
      apply Int.le_floor.mpr
      push_cast
      linarith
    omega
  · calc ⌊(n : ℚ) * (1/2)⌋ ≤ ⌊(n : ℚ)⌋ := by
          apply Int.floor_le_floor
          linarith
      _ = (n : ℤ) := Int.floor_natCast n

lemma treble_band_floors (n : ℕ) (hn : 7 ≤ n) :
    0 ≤ ⌊(n : ℚ) * (1/2)⌋ ∧ ⌊(n : ℚ) * (1/2)⌋ < ⌊(n : ℚ) * 1⌋ ∧
      ⌊(n : ℚ) * 1⌋ ≤ (n : ℤ) := by
  have hn7 : (7 : ℚ) ≤ (n : ℚ) := by exact_mod_cast hn
  have h1 : ⌊(n : ℚ) * 1⌋ = (n : ℤ) := by
    rw [mul_one]; exact Int.floor_natCast n
  refine ⟨Int.floor_nonneg.mpr (by positivity), ?_, by omega⟩
  rw [h1]
  apply Int.floor_lt.mpr
  push_cast
  linarith

lemma schedConst_one_steady : ∀ k : ℕ, k ≤ 400 →
    (schedConst (some 1) k).isTransitioning = false ∧
    (schedConst (some 1) k).patternTimer = some ((k : ℕ) : ℚ) ∧
    (schedConst (some 1) k).patternDuration = some 600 := by
  intro k
  induction k with
  | zero =>
    intro _
    refine ⟨rfl, ?_, rfl⟩
    norm_num [schedConst, initialScheduler]
  | succ k ih =>
    intro hk
    obtain ⟨h1, h2, h3⟩ := ih (by omega)
    have hgt : jsGt (jsAdd (schedConst (some 1) k).patternTimer (some 1))
        (dynamicDuration (schedConst (some 1) k).patternDuration (some 1)) = false := by
      rw [h2, h3]
      have hd : dynamicDuration (some 600) (some 1) = some 400 := by
        norm_num [dynamicDuration, jsMax, jsSub, jsMul]
      rw [hd]
      simp only [jsAdd, jsGt, jsLt, decide_eq_false_iff_not]
      have hk399 : (k : ℚ) ≤ 399 := by exact_mod_cast (by omega : k ≤ 399)
      intro hcon
      linarith
    rw [schedConst, updatePT_steady _ _ h1 hgt]
    refine ⟨h1, ?_, h3⟩
    show jsAdd (schedConst (some 1) k).patternTimer (some 1) = _
    rw [h2]
    simp only [jsAdd]
    push_cast
    norm_num

lemma schedConst_one_begins :
    (schedConst (some 1) 401).isTransitioning = true := by
  obtain ⟨h1, h2, h3⟩ := schedConst_one_steady 400 (le_refl _)
  have hgt : jsGt (jsAdd (schedConst (some 1) 400).patternTimer (some 1))
      (dynamicDuration (schedConst (some 1) 400).patternDuration (some 1)) = true := by
    rw [h2, h3]
    have hd : dynamicDuration (some 600) (some 1) = some 400 := by
      norm_num [dynamicDuration, jsMax, jsSub, jsMul]
    rw [hd]
    simp only [jsAdd, jsGt, jsLt, decide_eq_true_eq]
    norm_num
  have h401 : (401 : ℕ) = 400 + 1 := rfl
  rw [h401, schedConst, updatePT_begin _ _ h1 hgt]

/-- C3 (amended): on all-255 frequency arrays (of any length at least 7,
so that every band holds at least one sample) all four intensities
saturate at 1; with the saturated intensity and the default configured
duration 600, dynamicDuration is max(300, 600 − 200) = 400, not the floor
300 — the floor is attained only for configured durations up to 500 — and
each steady phase lasts 400 frames: the scheduler is still steady after
400 frames and begins a transition on frame 401. -/
theorem all255_saturates_duration_400 :
    (∀ n : ℕ, 7 ≤ n →
      audioIntensityOf (List.replicate n 255) n = some 1 ∧
      bassIntensityOf (List.replicate n 255) n = some 1 ∧
      midIntensityOf (List.replicate n 255) n = some 1 ∧
      trebleIntensityOf (List.replicate n 255) n = some 1) ∧
    dynamicDuration (some 600) (some 1) = some 400 ∧
    (∀ k : ℕ, k ≤ 400 → (schedConst (some 1) k).isTransitioning = false) ∧
    (schedConst (some 1) 401).isTransitioning = true := by
  refine ⟨?_, ?_, ?_, schedConst_one_begins⟩
  · intro n hn
    obtain ⟨b1, b2, b3⟩ := bass_band_floors n hn
    obtain ⟨m1, m2, m3⟩ := mid_band_floors n hn
    obtain ⟨t1, t2, t3⟩ := treble_band_floors n hn
    exact ⟨audio_all255 n (by omega), band_all255 n 0 (3/20) b1 b2 b3,
      band_all255 n (3/20) (1/2) m1 m2 m3, band_all255 n (1/2) 1 t1 t2 t3⟩
  · norm_num [dynamicDuration, jsMax, jsSub, jsMul]
  · intro k hk
    exact (schedConst_one_steady k hk).1

/-- C3 counterexample: with the all-255 input of length 32 the overall
intensity is exactly 1, but dynamicDuration at the default configured
duration 600 is 400, not the floor 300, and after 301 frames of such input
(where the original claim predicts the steady phase has already ended) the
scheduler has still not begun a transition. -/
theorem all255_duration_not_300_cex :
    audioIntensityOf (List.replicate 32 255) 32 = some 1 ∧
    dynamicDuration (some 600) (audioIntensityOf (List.replicate 32 255) 32) = some 400 ∧
    dynamicDuration (some 600) (audioIntensityOf (List.replicate 32 255) 32) ≠ some 300 ∧
    (schedConst (audioIntensityOf (List.replicate 32 255) 32) 301).isTransitioning = false := by
  have h1 : audioIntensityOf (List.replicate 32 255) 32 = some 1 :=
    audio_all255 32 (by norm_num)
  refine ⟨h1, ?_, ?_, ?_⟩
  · rw [h1]
    norm_num [dynamicDuration, jsMax, jsSub, jsMul]
  · rw [h1]
    norm_num [dynamicDuration, jsMax, jsSub, jsMul]
  · rw [h1]
    exact (schedConst_one_steady 301 (by norm_num)).1

/-- C3 witness: the amended statement applied at the concrete length 32
and the concrete frame counts 400 and 401. -/
theorem all255_saturates_duration_400_witness :
    bassIntensityOf (List.replicate 32 255) 32 = some 1 ∧
    (schedConst (some 1) 400).isTransitioning = false ∧
    (schedConst (some 1) 401).isTransitioning = true :=
  ⟨(all255_saturates_duration_400.1 32 (by norm_num)).2.1,
   all255_saturates_duration_400.2.2.1 400 (by norm_num),
   all255_saturates_duration_400.2.2.2⟩

/-!  Degenerate and bounded frequency bands (claims C1, C4). -/

lemma band_degenerate (d : List ℕ) (n : ℕ) (rl rh : ℚ)
    (h : ⌊(n : ℚ) * rl⌋ = ⌊(n : ℚ) * rh⌋) :
    getFrequencyBandIntensity d n rl rh = none := by
  simp only [getFrequencyBandIntensity, h]
  rw [show ((⌊(n : ℚ) * rh⌋ : ℚ) - (⌊(n : ℚ) * rh⌋ : ℚ)) = 0 by ring]
  rw [jsDiv, if_pos rfl]
  rfl

/-- C1 (amended): a band whose index range contains zero samples (endIndex
equal to startIndex, as for the bass band whenever floor(N*0.15) = 0 and
for every band and the overall mean when the array is empty) yields NaN —
the JS division 0/0 — rather than 0: there is no defensive guard in
getFrequencyBandIntensity, the NaN simply propagates into whatever is
derived from the intensity (no exception is thrown). -/
theorem band_zero_samples_yields_nan (d : List ℕ) (n : ℕ) (rl rh : ℚ)
    (h : ⌊(n : ℚ) * rl⌋ = ⌊(n : ℚ) * rh⌋) :
    getFrequencyBandIntensity d n rl rh = none ∧
      getFrequencyBandIntensity d n rl rh ≠ some 0 := by
  have hn := band_degenerate d n rl rh h
  exact ⟨hn, by rw [hn]; exact fun hc => Option.noConfusion hc⟩

/-- C1 counterexample: on the empty frequency array the bass band yields
NaN, not the intensity 0 stated by the claim. -/
theorem band_zero_samples_cex :
    getFrequencyBandIntensity [] 0 0 (3/20) = none ∧
      getFrequencyBandIntensity [] 0 0 (3/20) ≠ some 0 := by
  have hn := band_degenerate [] 0 0 (3/20) (by norm_num)
  exact ⟨hn, by rw [hn]; exact fun hc => Option.noConfusion hc⟩

/-- C1 witness: the amended statement applied to the empty array and to a
length-6 array (where floor(6*0.15) = 0 empties the bass band). -/
theorem band_zero_samples_yields_nan_witness :
    bassIntensityOf (List.replicate 6 255) 6 = none ∧
      bassIntensityOf (List.replicate 6 255) 6 ≠ some 0 :=
  band_zero_samples_yields_nan (List.replicate 6 255) 6 0 (3/20) (by norm_num)

lemma band_bounds (d : List ℕ) (n : ℕ) (rl rh : ℚ)
    (hlt : ⌊(n : ℚ) * rl⌋ < ⌊(n : ℚ) * rh⌋) :
    ∃ q : ℚ, getFrequencyBandIntensity d n rl rh = some q ∧ 0 ≤ q ∧ q ≤ 1 := by
  simp only [getFrequencyBandIntensity]
  set a := ⌊(n : ℚ) * rl⌋ with ha
  set b := ⌊(n : ℚ) * rh⌋ with hb
  have hbpos : (0 : ℚ) < (b : ℚ) - (a : ℚ) := by
    have : (a : ℚ) < (b : ℚ) := by exact_mod_cast hlt
    linarith
  have hsum : 0 ≤ ((List.range (b - a).toNat).map
      (fun k : ℕ => jsIndexD d (a + (k : ℤ)))).sum := by
    apply List.sum_nonneg
    intro x hx
    rw [List.mem_map] at hx
    obtain ⟨k, _, hxk⟩ := hx
    rw [← hxk, jsIndexD]
    split
    · positivity
    · exact le_refl 0
  rw [jsDiv, if_neg (ne_of_gt hbpos), jsDiv,
    if_neg (by norm_num : ((128 : ℚ)) ≠ 0), jsMin]
  refine ⟨_, rfl, ?_, min_le_left _ _⟩
  apply le_min (by norm_num)
  positivity

lemma jsMod360_range (x : ℚ) (hx : 0 ≤ x) :
    ∃ r : ℚ, jsMod (some x) (some 360) = some r ∧ 0 ≤ r ∧ r < 360 := by
  rw [jsMod, if_neg (by norm_num : ((360 : ℚ)) ≠ 0)]
  rw [jsTrunc, if_pos (by positivity : (0 : ℚ) ≤ x / 360)]
  refine ⟨_, rfl, ?_, ?_⟩
  · have h := Int.floor_le (x / 360)
    nlinarith
  · have h := Int.lt_floor_add_one (x / 360)
    nlinarith

lemma render_hue_invariant (s : EngineState) (d : List ℕ) (E : HostEnv)
    (R1 R2 : FrameRand) (hlen : 7 ≤ d.length)
    (hq : ∃ q : ℚ, s.hueBase = some q ∧ 0 ≤ q ∧ q < 360) :
    ∃ q : ℚ, (render s d d.length E R1 R2).hueBase = some q ∧ 0 ≤ q ∧ q < 360 := by
  obtain ⟨q, hq1, hq2, hq3⟩ := hq
  obtain ⟨_, hlt, _⟩ := bass_band_floors d.length hlen
  obtain ⟨bq, hbeq, hb0, hb1⟩ := band_bounds d d.length 0 (3/20) hlt
  rw [render_hueBase, hq1]
  rw [show bassIntensityOf d d.length = getFrequencyBandIntensity d d.length 0 (3/20)
    from rfl, hbeq]
  simp only [jsAdd, jsMul]
  apply jsMod360_range
  have : 0 ≤ bq * (3/2) := by positivity
  linarith

lemma engineRun_hue (E : HostEnv) (RF : ℕ → FrameRand × FrameRand) :
    ∀ (ds : List (List ℕ)) (s : EngineState) (k : ℕ),
      (∀ d ∈ ds, 7 ≤ d.length) →
      (∃ q : ℚ, s.hueBase = some q ∧ 0 ≤ q ∧ q < 360) →
      ∃ q : ℚ, (engineRun E RF s k ds).hueBase = some q ∧ 0 ≤ q ∧ q < 360 := by
  intro ds
  induction ds with
  | nil => intro s k _ hq; exact hq
  | cons d ds ih =>
    intro s k hlen hq
    rw [engineRun]
    exact ih _ _ (fun e he => hlen e (List.mem_cons_of_mem d he))
      (render_hue_invariant s d E (RF k).1 (RF k).2
        (hlen d (List.mem_cons_self d ds)) hq)

/-- C4 (amended): starting from the constructor state (hueBase 0), after
any number of render calls in the caller's shape (bufferLength equal to
the array length) on arrays whose bass band is nonempty (length at least
7, so floor(0.15*N) is at least 1), hueBase is a finite value in [0, 360):
every render advances it by 0.3 plus bassIntensity*1.5 modulo 360.  The
length restriction is necessary: an input with an empty bass band makes
bassIntensity NaN, which the hue update then stores into hueBase (see the
counterexample). -/
theorem hue_base_in_range (E : HostEnv) (RF : ℕ → FrameRand × FrameRand)
    (w h : JsNum) (P : PoolRand) (ds : List (List ℕ))
    (hlen : ∀ d ∈ ds, 7 ≤ d.length) :
    ∃ q : ℚ, (engineRun E RF (initialEngine w h E P) 0 ds).hueBase = some q ∧
      0 ≤ q ∧ q < 360 :=
  engineRun_hue E RF ds (initialEngine w h E P) 0 hlen
    ⟨0, rfl, le_refl 0, by norm_num⟩

/-- C4 counterexample: one render call on the empty frequency array (a
valid input per the extractor contract, length N = 0) drives hueBase to
NaN, which is not in [0, 360); the claim fails for inputs whose bass band
holds zero samples. -/
theorem hue_base_nan_cex :
    (render (initialEngine (some 800) (some 600) zeroEnv zeroPool) [] 0
      zeroEnv zeroFrame zeroFrame).hueBase = none := by
  rw [render_hueBase]
  rw [show bassIntensityOf [] 0 = none from band_degenerate [] 0 0 (3/20) (by norm_num)]
  rfl

/-- C4 witness: a one-frame run on a length-16 all-255 array keeps hueBase
in range. -/
theorem hue_base_in_range_witness :
    ∃ q : ℚ, (engineRun zeroEnv (fun _ => (zeroFrame, zeroFrame))
      (initialEngine (some 800) (some 600) zeroEnv zeroPool) 0
      [List.replicate 16 255]).hueBase = some q ∧ 0 ≤ q ∧ q < 360 :=
  hue_base_in_range zeroEnv (fun _ => (zeroFrame, zeroFrame)) (some 800)
    (some 600) zeroPool [List.replicate 16 255]
    (by intro d hd; rw [List.mem_singleton] at hd; rw [hd]; simp)

/-!  Bubble lifecycle (claim C6). -/

/-- C6: one bubbles-pattern update of a single bubble.  A Rising bubble
(popping = false) survives the update and comes out Popping exactly when
its incremented age exceeds maxAge, or its updated position leaves the
surface upward (y below -2*radius) or sideways (x beyond either edge by
more than radius), or treble intensity exceeds 0.7 and the pop draw
exceeds 0.95; its popProgress is untouched.  A Popping bubble accumulates
0.1 + trebleIntensity*0.1 of popProgress and is removed (the update
returns none, and the pass of C10 deletes exactly these) on the first
update where the accumulated popProgress reaches 1. -/
theorem bubble_lifecycle (b : Bubble) (w time treble : JsNum) (sinO : ℚ → ℚ)
    (rB rP : ℚ) :
    (b.popping = false →
      ∃ b2 : Bubble, updateBubble b w time treble sinO rB rP = some b2 ∧
        b2.popProgress = b.popProgress ∧
        b2.age = jsAdd b.age (some 1) ∧
        b2.popping = (jsGt b2.age b.maxAge ||
          jsLt b2.y (jsMul (jsNeg b.radius) (some 2)) ||
          jsLt b2.x (jsNeg b.radius) || jsGt b2.x (jsAdd w b.radius) ||
          (jsGt treble (some (7/10)) && decide ((19/20 : ℚ) < rP)))) ∧
    (b.popping = true →
      updateBubble b w time treble sinO rB rP =
        (if jsGe (jsAdd b.popProgress (jsAdd (some (1/10))
              (jsMul treble (some (1/10))))) (some 1)
          then none
          else some { b with popProgress := (jsAdd b.popProgress
            (jsAdd (some (1/10)) (jsMul treble (some (1/10))))) })) := by
  constructor
  · intro hp
    rw [updateBubble, if_neg (by rw [hp]; exact Bool.false_ne_true)]
    dsimp only
    split
    · rename_i hcond
      exact ⟨_, rfl, rfl, rfl, by rw [hcond]⟩
    · rename_i hcond
      exact ⟨_, rfl, rfl, rfl, by
        rw [hp, Bool.eq_false_iff.mpr hcond]⟩
  · intro hp
    rw [updateBubble, if_pos hp]

/-- C6 witness: the lifecycle applied to a rising bubble whose age exceeds
its maxAge (it comes out popping) and to a popping bubble at progress
19/20 and treble 0 (19/20 + 1/10 reaches 1, so it is removed). -/
theorem bubble_lifecycle_witness :
    (∃ b2 : Bubble, updateBubble sampleRisingBubble (some 100) (some 0) (some 0)
        (fun _ => 0) 0 0 = some b2 ∧ b2.popping = true) ∧
    updateBubble samplePoppingBubble (some 100) (some 0) (some 0)
      (fun _ => 0) 0 0 = none := by
  constructor
  · obtain ⟨b2, heq, hprog, hage, hpop⟩ :=
      (bubble_lifecycle sampleRisingBubble (some 100) (some 0) (some 0)
        (fun _ => 0) 0 0).1 rfl
    refine ⟨b2, heq, ?_⟩
    rw [hpop, hage]
    have h1 : jsGt (jsAdd sampleRisingBubble.age (some 1))
        sampleRisingBubble.maxAge = true := by
      show jsGt (jsAdd (some 500) (some 1)) (some 300) = true
      simp only [jsAdd, jsGt, jsLt, decide_eq_true_eq]
      norm_num
    rw [h1]
    simp
  · have h := (bubble_lifecycle samplePoppingBubble (some 100) (some 0)
      (some 0) (fun _ => 0) 0 0).2 rfl
    rw [h]
    have hc : jsGe (jsAdd samplePoppingBubble.popProgress
        (jsAdd (some (1/10)) (jsMul (some 0) (some (1/10))))) (some 1) = true := by
      show jsGe (jsAdd (some (19/20)) (jsAdd (some (1/10))
        (jsMul (some 0) (some (1/10))))) (some 1) = true
      simp only [jsAdd, jsMul, jsGe, decide_eq_true_eq]
      norm_num
    rw [if_pos hc]

/-- C10: the renderBubbles update pass, which walks the pool from the last
index down to 0 and removes finished bubbles by an in-place splice at the
current index, processes every bubble that was in the pool at the start
exactly once (indices below the cursor are never disturbed by the splice),
and its result equals updating each bubble independently and then deleting
exactly those whose update reached popProgress 1. -/
theorem bubbles_pass_equals_independent_update (w time treble : JsNum)
    (sinO : ℚ → ℚ) (rB rP : ℕ → ℚ) (l : List Bubble) :
    bubblesPass w time treble sinO rB rP l =
      bubblesIndependent w time treble sinO rB rP 0 l := by
  have := bubblesPassFrom_spec w time treble sinO rB rP l []
  simpa [bubblesPass] using this

end Songbird
